import Mathlib

/-!
Verification of the filter-and-aggregate pipeline of the Superstore sales
dashboard (src/app.py).  Tables are modelled as lists of rows in upload order;
pandas boolean-mask filtering is modelled by List.filter, and the index
alignment pandas performs when a mask computed over one table is applied to a
sub-table is modelled by evaluating the mask condition rowwise on the sub-table
(each row keeps its index, so a mask lookup at a row of df3 returns the value
the mask predicate takes on that same row).
-/

namespace Superstore

/-- A calendar date as parsed from the Order Date column: year, month (1-12), day. -/
structure Date where
  year : Nat
  month : Nat
  day : Nat
  deriving DecidableEq, Repr

/-- Chronological order on dates, as pandas compares datetime values. -/
def Date.le (a b : Date) : Prop :=
  a.year < b.year ∨ (a.year = b.year ∧ (a.month < b.month ∨ (a.month = b.month ∧ a.day ≤ b.day)))

/-- Strict chronological order on dates. -/
def Date.lt (a b : Date) : Prop :=
  a.year < b.year ∨ (a.year = b.year ∧ (a.month < b.month ∨ (a.month = b.month ∧ a.day < b.day)))

instance : LE Date := ⟨Date.le⟩

instance : LT Date := ⟨Date.lt⟩

instance Date.decLE (a b : Date) : Decidable (a ≤ b) :=
  inferInstanceAs (Decidable (_ ∨ _))

instance Date.decLT (a b : Date) : Decidable (a < b) :=
  inferInstanceAs (Decidable (_ ∨ _))

/-- One sales transaction row after preprocessing (order date parsed successfully). -/
structure Row where
  orderDate : Date
  region : String
  state : String
  city : String
  category : String
  subCategory : String
  segment : String
  productName : String
  orderId : String
  customerId : String
  sales : ℚ
  profit : ℚ
  quantity : Int
  deriving DecidableEq, Repr

/-- One uploaded row before preprocessing: the raw Order Date field either parses
to a date (some) or fails to parse (none, the NaT that errors=coerce produces). -/
structure RawRow where
  orderDateRaw : Option Date
  region : String
  state : String
  city : String
  category : String
  subCategory : String
  segment : String
  productName : String
  orderId : String
  customerId : String
  sales : ℚ
  profit : ℚ
  quantity : Int
  deriving DecidableEq, Repr

/-- Conversion of a raw row whose date parsed; none when the date failed to parse. -/
def RawRow.toRow (r : RawRow) : Option Row :=
  r.orderDateRaw.map fun d =>
    { orderDate := d, region := r.region, state := r.state, city := r.city,
      category := r.category, subCategory := r.subCategory, segment := r.segment,
      productName := r.productName, orderId := r.orderId, customerId := r.customerId,
      sales := r.sales, profit := r.profit, quantity := r.quantity }

/-- Preprocessing (app.py lines 138-141): to_datetime with errors=coerce followed by
dropna on the Order Date column - rows whose date fails to parse are dropped. -/
def preprocess (l : List RawRow) : List Row :=
  l.filterMap RawRow.toRow

/-- Date-range slice (app.py line 179): keep rows whose order date lies between the
two picked dates, both bounds inclusive. -/
def dateSlice (l : List Row) (date1 date2 : Date) : List Row :=
  l.filter fun r => decide (date1 ≤ r.orderDate) && decide (r.orderDate ≤ date2)

/-- Region-narrowed table df2 (app.py lines 195-198): a copy of the base when no
region is picked, else the rows whose region is among the picked ones. -/
def df2 (df : List Row) (region : List String) : List Row :=
  if region = [] then df else df.filter fun r => decide (r.region ∈ region)

/-- State-narrowed table df3 (app.py lines 207-210), derived from df2. -/
def df3 (df : List Row) (region state : List String) : List Row :=
  if state = [] then df2 df region
  else (df2 df region).filter fun r => decide (r.state ∈ state)

/-- City-narrowed table df4 (app.py lines 219-222), derived from df3. -/
def df4 (df : List Row) (region state city : List String) : List Row :=
  if city = [] then df3 df region state
  else (df3 df region state).filter fun r => decide (r.city ∈ city)

/-- Final filtered table: the eight-branch construction of app.py lines 228-243.
The masks the source computes over df (the date-sliced base) and then applies to
df3 are aligned by row index, so a df3 row is kept exactly when its own fields
satisfy the mask conditions. -/
def filtered_df (df : List Row) (region state city : List String) : List Row :=
  if region = [] ∧ state = [] ∧ city = [] then df
  else if state = [] ∧ city = [] then df.filter fun r => decide (r.region ∈ region)
  else if region = [] ∧ city = [] then df.filter fun r => decide (r.state ∈ state)
  else if state ≠ [] ∧ city ≠ [] then
    (df3 df region state).filter fun r => decide (r.state ∈ state) && decide (r.city ∈ city)
  else if region ≠ [] ∧ city ≠ [] then
    (df3 df region state).filter fun r => decide (r.region ∈ region) && decide (r.city ∈ city)
  else if region ≠ [] ∧ state ≠ [] then
    (df3 df region state).filter fun r => decide (r.region ∈ region) && decide (r.state ∈ state)
  else if city ≠ [] then
    (df3 df region state).filter fun r => decide (r.city ∈ city)
  else
    (df3 df region state).filter fun r =>
      decide (r.region ∈ region) && decide (r.state ∈ state) && decide (r.city ∈ city)

/-- Modelled from the spec (section 4.1 note): the simplified AND-only-active-constraints
predicate - filter the date-sliced base by the conjunction of exactly the non-empty
membership constraints. -/
def simplifiedFilter (df : List Row) (region state city : List String) : List Row :=
  df.filter fun r =>
    (decide (region = []) || decide (r.region ∈ region)) &&
    ((decide (state = []) || decide (r.state ∈ state)) &&
     (decide (city = []) || decide (r.city ∈ city)))

/-- Abbreviated month name, as strftime renders %b. -/
def monthAbbr : Nat → String
  | 1 => "Jan"
  | 2 => "Feb"
  | 3 => "Mar"
  | 4 => "Apr"
  | 5 => "May"
  | 6 => "Jun"
  | 7 => "Jul"
  | 8 => "Aug"
  | 9 => "Sep"
  | 10 => "Oct"
  | 11 => "Nov"
  | 12 => "Dec"
  | _ => ""

/-- Full month name, as dt.month_name renders it. -/
def monthName : Nat → String
  | 1 => "January"
  | 2 => "February"
  | 3 => "March"
  | 4 => "April"
  | 5 => "May"
  | 6 => "June"
  | 7 => "July"
  | 8 => "August"
  | 9 => "September"
  | 10 => "October"
  | 11 => "November"
  | 12 => "December"
  | _ => ""

/-- The strftime format string of app.py line 412 applied to a date: year, a spaced
colon, then the abbreviated month name. -/
def monthLabel (d : Date) : String :=
  toString d.year ++ " : " ++ monthAbbr d.month

/-- Lexicographic character-code comparison of char lists, the way Python compares
strings (and hence the way pandas groupby sorts string keys). -/
def leChars : List Char → List Char → Bool
  | [], _ => true
  | _ :: _, [] => false
  | a :: as, b :: bs =>
    if a.toNat < b.toNat then true
    else if b.toNat < a.toNat then false
    else leChars as bs

/-- Lexicographic order on strings by character code. -/
def strLe (a b : String) : Prop :=
  leChars a.data b.data = true

instance : DecidableRel strLe :=
  fun a b => instDecidableEqBool (leChars a.data b.data) true

/-- Grouped sum the way pandas groupby with default sort=True computes it: one output
row per distinct key, keys in ascending order, value = sum of the column over the rows
of the group. -/
def groupSum (l : List Row) (key : Row → String) (val : Row → ℚ) : List (String × ℚ) :=
  (List.insertionSort strLe (l.map key).dedup).map fun k =>
    (k, ((l.filter fun r => decide (key r = k)).map val).sum)

/-- Category-wise sales (app.py line 305). -/
def category_df (l : List Row) : List (String × ℚ) :=
  groupSum l Row.category Row.sales

/-- Segment-wise sales (app.py line 482). -/
def segment_df (l : List Row) : List (String × ℚ) :=
  groupSum l Row.segment Row.sales

/-- The comparator of the descending sort_values call on (key, summed value) pairs:
a may precede b exactly when the value of b does not exceed the value of a. -/
def salesDesc (a b : String × ℚ) : Prop :=
  b.2 ≤ a.2

instance : DecidableRel salesDesc :=
  fun a b => inferInstanceAs (Decidable (b.2 ≤ a.2))

/-- Top ten cities (app.py lines 335-340): group by city with summed sales, sort
descending on the summed sales, take 10.  The sort_values call uses its default
quicksort, which guarantees no particular order among tied rows; the model fixes
one permissible outcome, the stable order (which numpy also exhibits on arrays
small enough for its insertion-sort path), so only properties that hold for every
tie order - lengths, descending sortedness, behavior on concrete small inputs -
are stated about this definition. -/
def top_cities (l : List Row) : List (String × ℚ) :=
  (List.insertionSort salesDesc (groupSum l Row.city Row.sales)).take 10

/-- Monthly time series (app.py lines 408-413): group by the formatted month-year
label of the order date and sum sales; pandas groupby sorts the string keys
lexicographically. -/
def linechart (l : List Row) : List (String × ℚ) :=
  groupSum l (fun r => monthLabel r.orderDate) Row.sales

/-- Regional performance (app.py lines 531-535): per region the summed sales, profit
and quantity. -/
def region_performance (l : List Row) : List (String × ℚ × ℚ × Int) :=
  (List.insertionSort strLe (l.map Row.region).dedup).map fun k =>
    (k, ((l.filter fun r => decide (r.region = k)).map Row.sales).sum,
        ((l.filter fun r => decide (r.region = k)).map Row.profit).sum,
        ((l.filter fun r => decide (r.region = k)).map Row.quantity).sum)

/-- Top ten profitable products (app.py lines 611-617). -/
def top_products (l : List Row) : List (String × ℚ) :=
  (List.insertionSort salesDesc (groupSum l Row.productName Row.profit)).take 10

/-- Total sales KPI (app.py line 251). -/
def total_sales (l : List Row) : ℚ :=
  (l.map Row.sales).sum

/-- Total profit KPI (app.py line 252). -/
def total_profit (l : List Row) : ℚ :=
  (l.map Row.profit).sum

/-- Total quantity KPI (app.py line 253). -/
def total_quantity (l : List Row) : Int :=
  (l.map Row.quantity).sum

/-- Profit margin KPI (app.py line 254), guarded to 0 unless total sales is positive. -/
def profit_margin (l : List Row) : ℚ :=
  if 0 < total_sales l then total_profit l / total_sales l * 100 else 0

/-- Average order value (app.py line 255): the mean of the per-Order-ID summed sales.
The mean of an empty series is NaN in pandas; that undefined value is modelled as
none - the source has no guard for the empty case. -/
def avg_order_value (l : List Row) : Option ℚ :=
  let orders := (l.map Row.orderId).dedup
  if orders = [] then none
  else
    some ((orders.map fun o =>
      ((l.filter fun r => decide (r.orderId = o)).map Row.sales).sum).sum / orders.length)

/-- Unique customer count KPI (app.py line 290). -/
def unique_customers (l : List Row) : Nat :=
  (l.map Row.customerId).dedup.length

/-- One cell of the monthly sub-category pivot (app.py lines 580-585): pivot_table
with its default aggregation computes the MEAN of Sales over the filtered rows of
that sub-category and month name; a combination with no rows is absent (NaN),
modelled as none. -/
def sub_category_year (l : List Row) (s m : String) : Option ℚ :=
  let rows := l.filter fun r =>
    decide (r.subCategory = s) && decide (monthName r.orderDate.month = m)
  if rows = [] then none else some ((rows.map Row.sales).sum / rows.length)

/-- Helper building a row from its fields positionally. -/
def mkRow (d : Date) (reg st ci cat sub seg prod oid cid : String) (s p : ℚ) (q : Int) : Row :=
  { orderDate := d, region := reg, state := st, city := ci, category := cat,
    subCategory := sub, segment := seg, productName := prod, orderId := oid,
    customerId := cid, sales := s, profit := p, quantity := q }

/-- Sample row: a Chairs sale of 1 on 2023-02-10. -/
def exFeb : Row :=
  mkRow ⟨2023, 2, 10⟩ "East" "New York" "Buffalo" "Furniture" "Chairs" "Consumer" "ChairA" "O1" "C1" 1 0 1

/-- Sample row: a Chairs sale of 2 on 2023-04-05. -/
def exApr : Row :=
  mkRow ⟨2023, 4, 5⟩ "East" "New York" "Buffalo" "Furniture" "Chairs" "Consumer" "ChairB" "O2" "C2" 2 0 1

/-- Sample row: a Chairs sale of 3 on 2022-02-01, February of an earlier year. -/
def exFebPrev : Row :=
  mkRow ⟨2022, 2, 1⟩ "East" "New York" "Buffalo" "Furniture" "Chairs" "Consumer" "ChairC" "O3" "C3" 3 0 1

/-- Sample row in city B with sales 5. -/
def exCityB : Row :=
  mkRow ⟨2023, 1, 1⟩ "East" "New York" "B" "Furniture" "Chairs" "Consumer" "P1" "O4" "C4" 5 0 1

/-- Sample row in city A with sales 5. -/
def exCityA : Row :=
  mkRow ⟨2023, 1, 1⟩ "East" "New York" "A" "Furniture" "Chairs" "Consumer" "P2" "O5" "C5" 5 0 1

/-- Sample row with positive sales and zero profit. -/
def exZeroProfit : Row :=
  mkRow ⟨2023, 1, 1⟩ "East" "New York" "Buffalo" "Furniture" "Chairs" "Consumer" "P3" "O6" "C6" 10 0 1

/-- Sample row with sales 10 and profit 5. -/
def exPosProfit : Row :=
  mkRow ⟨2023, 1, 1⟩ "East" "New York" "Buffalo" "Furniture" "Chairs" "Consumer" "P4" "O7" "C7" 10 5 1

/-- Sample raw row whose order date parses to 2023-02-10. -/
def exRawGood : RawRow :=
  { orderDateRaw := some ⟨2023, 2, 10⟩, region := "East", state := "New York",
    city := "Buffalo", category := "Furniture", subCategory := "Chairs",
    segment := "Consumer", productName := "ChairA", orderId := "O1",
    customerId := "C1", sales := 1, profit := 0, quantity := 1 }

/-- Sample raw row whose order date fails to parse. -/
def exRawBad : RawRow :=
  { orderDateRaw := none, region := "West", state := "Utah",
    city := "Provo", category := "Furniture", subCategory := "Tables",
    segment := "Consumer", productName := "TableA", orderId := "O8",
    customerId := "C8", sales := 2, profit := 0, quantity := 1 }

/-- The row exRawGood preprocesses to. -/
def exRowGood : Row :=
  mkRow ⟨2023, 2, 10⟩ "East" "New York" "Buffalo" "Furniture" "Chairs" "Consumer" "ChairA" "O1" "C1" 1 0 1

theorem Date.le_trans {a b c : Date} (h1 : a ≤ b) (h2 : b ≤ c) : a ≤ c := by
  have h1' : Date.le a b := h1
  have h2' : Date.le b c := h2
  show Date.le a c
  unfold Date.le at h1' h2' ⊢
  omega

theorem Date.not_le_of_lt {a b : Date} (h : b < a) : ¬a ≤ b := by
  have h' : Date.lt b a := h
  intro hle
  have hle' : Date.le a b := hle
  unfold Date.lt at h'
  unfold Date.le at hle'
  omega

theorem leChars_total : ∀ as bs, leChars as bs = true ∨ leChars bs as = true
  | [], _ => Or.inl rfl
  | _ :: _, [] => Or.inr rfl
  | a :: as, b :: bs => by
    rcases leChars_total as bs with h | h <;>
      simp only [leChars] <;>
      by_cases g1 : a.toNat < b.toNat <;> by_cases g2 : b.toNat < a.toNat <;> simp_all

theorem leChars_trans :
    ∀ as bs cs, leChars as bs = true → leChars bs cs = true → leChars as cs = true := by
  intro as
  induction as with
  | nil => intro bs cs h1 h2; rfl
  | cons a as ih =>
    intro bs cs h1 h2
    cases bs with
    | nil => simp [leChars] at h1
    | cons b bs =>
      cases cs with
      | nil => simp [leChars] at h2
      | cons c cs =>
        simp only [leChars] at h1 h2 ⊢
        by_cases g1 : a.toNat < b.toNat <;> by_cases g2 : b.toNat < a.toNat <;>
          by_cases g3 : b.toNat < c.toNat <;> by_cases g4 : c.toNat < b.toNat <;>
          by_cases g5 : a.toNat < c.toNat <;> by_cases g6 : c.toNat < a.toNat <;>
          simp_all <;>
          first
            | omega
            | exact ih bs cs h1 h2
            | exact Or.inr (ih bs cs h1 h2)

theorem filtered_df_eq_simplifiedFilter (df : List Row) (region state city : List String) :
    filtered_df df region state city = simplifiedFilter df region state city := by
  by_cases hR : region = [] <;> by_cases hS : state = [] <;> by_cases hC : city = [] <;>
    simp [filtered_df, simplifiedFilter, df3, df2, hR, hS, hC, List.filter_filter] <;>
    exact List.filter_congr fun r hr => by
      by_cases h1 : r.region ∈ region <;> by_cases h2 : r.state ∈ state <;>
        by_cases h3 : r.city ∈ city <;> simp [h1, h2, h3]

theorem mem_dateSlice {l : List Row} {d1 d2 : Date} {r : Row} :
    r ∈ dateSlice l d1 d2 ↔ r ∈ l ∧ d1 ≤ r.orderDate ∧ r.orderDate ≤ d2 := by
  simp [dateSlice, List.mem_filter]

theorem dateSlice_eq_nil {l : List Row} {d1 d2 : Date} (h : d2 < d1) :
    dateSlice l d1 d2 = [] := by
  simp only [dateSlice, List.filter_eq_nil_iff, Bool.and_eq_true, decide_eq_true_eq, not_and]
  intro r _ h1 h2
  exact Date.not_le_of_lt h (Date.le_trans h1 h2)

theorem preprocess_retains {l : List RawRow} {raw : RawRow} {row : Row}
    (hmem : raw ∈ l) (hparse : raw.toRow = some row) : row ∈ preprocess l := by
  simp only [preprocess, List.mem_filterMap]
  exact ⟨raw, hmem, hparse⟩

theorem preprocess_sound {l : List RawRow} {row : Row} (h : row ∈ preprocess l) :
    ∃ raw, raw ∈ l ∧ raw.orderDateRaw = some row.orderDate := by
  simp only [preprocess, List.mem_filterMap] at h
  obtain ⟨raw, hmem, htr⟩ := h
  refine ⟨raw, hmem, ?_⟩
  unfold RawRow.toRow at htr
  cases hd : raw.orderDateRaw with
  | none => rw [hd] at htr; simp at htr
  | some d =>
    rw [hd] at htr
    simp only [Option.map_some', Option.some.injEq] at htr
    rw [← htr]

theorem preprocess_length (l : List RawRow) :
    (preprocess l).length = (l.filter fun r => r.orderDateRaw.isSome).length := by
  induction l with
  | nil => rfl
  | cons a t ih =>
    cases hd : a.orderDateRaw with
    | none =>
      have hnone : a.toRow = none := by simp [RawRow.toRow, hd]
      simp only [preprocess, List.filterMap_cons_none hnone, List.filter_cons, hd,
        Option.isSome_none, Bool.false_eq_true, if_false]
      exact ih
    | some d =>
      have hsome : a.toRow = some
          { orderDate := d, region := a.region, state := a.state, city := a.city,
            category := a.category, subCategory := a.subCategory, segment := a.segment,
            productName := a.productName, orderId := a.orderId, customerId := a.customerId,
            sales := a.sales, profit := a.profit, quantity := a.quantity } := by
        simp [RawRow.toRow, hd]
      simp only [preprocess, List.filterMap_cons_some hsome, List.filter_cons, hd,
        Option.isSome_some, List.length_cons, if_true]
      exact congrArg (fun n => n + 1) ih

theorem sum_map_zero {α : Type} (K : List α) : (K.map fun _ => (0 : ℚ)).sum = 0 := by
  induction K with
  | nil => rfl
  | cons a t ih => simp [ih]

theorem sum_map_add {α : Type} (K : List α) (f g : α → ℚ) :
    (K.map fun k => f k + g k).sum = (K.map f).sum + (K.map g).sum := by
  induction K with
  | nil => simp
  | cons a t ih =>
    simp only [List.map_cons, List.sum_cons, ih]
    ring

theorem sum_map_ite_eq {K : List String} (hK : K.Nodup) {k0 : String} (hk : k0 ∈ K) (v : ℚ) :
    (K.map fun k => if k0 = k then v else 0).sum = v := by
  induction K with
  | nil => cases hk
  | cons a t ih =>
    rcases List.mem_cons.mp hk with h | h
    · subst h
      have hnot : k0 ∉ t := (List.nodup_cons.mp hK).1
      simp only [List.map_cons, List.sum_cons]
      have hz : (t.map fun k => if k0 = k then v else 0) = t.map fun _ => (0 : ℚ) :=
        List.map_congr_left fun k hkmem =>
          if_neg fun e => hnot (by rw [e]; exact hkmem)
      rw [hz, sum_map_zero, add_zero]
      simp
    · have hne : a ≠ k0 := fun e => (List.nodup_cons.mp hK).1 (e ▸ h)
      simp only [List.map_cons, List.sum_cons]
      rw [if_neg fun e => hne e.symm, ih (List.nodup_cons.mp hK).2 h, zero_add]

theorem sum_filter_groups (key : Row → String) (val : Row → ℚ) :
    ∀ (l : List Row) (K : List String), K.Nodup → (∀ r ∈ l, key r ∈ K) →
      (K.map fun k => ((l.filter fun r => decide (key r = k)).map val).sum).sum
        = (l.map val).sum := by
  intro l
  induction l with
  | nil =>
    intro K _ _
    simp only [List.filter_nil, List.map_nil, List.sum_nil]
    exact sum_map_zero K
  | cons r t ih =>
    intro K hK hmem
    have hr : key r ∈ K := hmem r (List.mem_cons_self r t)
    have step : ∀ k ∈ K,
        (((r :: t).filter fun x => decide (key x = k)).map val).sum
          = (if key r = k then val r else 0)
            + ((t.filter fun x => decide (key x = k)).map val).sum := by
      intro k _
      by_cases h : key r = k <;> simp [List.filter_cons, h]
    rw [List.map_congr_left step, sum_map_add, sum_map_ite_eq hK hr,
      ih K hK fun x hx => hmem x (List.mem_cons_of_mem r hx)]
    simp

theorem groupSum_snd_sum (l : List Row) (key : Row → String) (val : Row → ℚ) :
    ((groupSum l key val).map Prod.snd).sum = (l.map val).sum := by
  unfold groupSum
  rw [List.map_map]
  have hnodup : (List.insertionSort strLe (l.map key).dedup).Nodup :=
    (List.perm_insertionSort strLe _).nodup_iff.mpr (List.nodup_dedup _)
  have hmem : ∀ r ∈ l, key r ∈ List.insertionSort strLe (l.map key).dedup := by
    intro r hr
    exact (List.perm_insertionSort strLe _).mem_iff.mpr
      (List.mem_dedup.mpr (List.mem_map_of_mem key hr))
  have := sum_filter_groups key val l (List.insertionSort strLe (l.map key).dedup) hnodup hmem
  rw [← this]
  rfl

theorem top_cities_length (l : List Row) :
    (top_cities l).length = min 10 (l.map Row.city).dedup.length := by
  unfold top_cities groupSum
  rw [List.length_take, List.length_insertionSort, List.length_map,
    List.length_insertionSort]

theorem top_cities_sorted (l : List Row) :
    List.Pairwise salesDesc (top_cities l) := by
  haveI : IsTotal (String × ℚ) salesDesc := ⟨fun a b => le_total b.2 a.2⟩
  haveI : IsTrans (String × ℚ) salesDesc := ⟨fun a b c h1 h2 => le_trans h2 h1⟩
  exact List.Pairwise.sublist (List.take_sublist _ _)
    (List.sorted_insertionSort salesDesc _)

/-- C1: for every date-sliced dataset and every selection of region/state/city sets,
each possibly empty, the eight-branch filter construction produces exactly the same
rows as filtering the date-sliced base by the conjunction of only the non-empty
membership constraints, across all eight emptiness combinations. -/
theorem C1_eight_branch_filter_equivalence (df : List Row) (region state city : List String) :
    filtered_df df region state city = simplifiedFilter df region state city :=
  filtered_df_eq_simplifiedFilter df region state city

/-- C2 amended: a pivot cell is absent (none) exactly when no filtered row has that
sub-category and order-date month name, and a present cell holds the MEAN of the
sales of those rows (pivot_table defaults to mean aggregation): the cell value q
satisfies q times the row count = the summed sales. -/
theorem C2_pivot_cell_mean (l : List Row) (s m : String) :
    (sub_category_year l s m = none ↔
      (l.filter fun r =>
        decide (r.subCategory = s) && decide (monthName r.orderDate.month = m)) = []) ∧
    (∀ q, sub_category_year l s m = some q →
      (l.filter fun r =>
        decide (r.subCategory = s) && decide (monthName r.orderDate.month = m)) ≠ [] ∧
      q * (((l.filter fun r =>
        decide (r.subCategory = s) && decide (monthName r.orderDate.month = m)).length : ℚ))
        = ((l.filter fun r =>
            decide (r.subCategory = s) && decide (monthName r.orderDate.month = m)).map
              Row.sales).sum) := by
  constructor
  · constructor
    · intro hnone
      by_contra hne
      simp only [sub_category_year, if_neg hne] at hnone
      cases hnone
    · intro hemp
      simp only [sub_category_year, if_pos hemp]
  · intro q hq
    by_cases hemp : (l.filter fun r =>
        decide (r.subCategory = s) && decide (monthName r.orderDate.month = m)) = []
    · rw [sub_category_year] at hq
      simp only [if_pos hemp] at hq
      cases hq
    · refine ⟨hemp, ?_⟩
      rw [sub_category_year] at hq
      simp only [if_neg hemp, Option.some.injEq] at hq
      rw [← hq, div_mul_cancel₀]
      exact Nat.cast_ne_zero.mpr fun h0 => hemp (List.length_eq_zero.mp h0)

/-- C2 witness: instantiating the amended pivot theorem at a one-row table whose
cell is some 1. -/
theorem C2_pivot_cell_mean_witness :
    ([exFeb].filter fun r =>
      decide (r.subCategory = "Chairs") && decide (monthName r.orderDate.month = "February")) ≠ [] ∧
    (1 : ℚ) * ((([exFeb].filter fun r =>
      decide (r.subCategory = "Chairs") && decide (monthName r.orderDate.month = "February")).length : ℚ))
      = ((([exFeb].filter fun r =>
          decide (r.subCategory = "Chairs") && decide (monthName r.orderDate.month = "February")).map
            Row.sales).sum) :=
  (C2_pivot_cell_mean [exFeb] "Chairs" "February").2 1 (by
    simp [sub_category_year, exFeb, mkRow, monthName])

/-- C2 counterexample: with two Chairs rows in February, one of sales 1 and one of
sales 3, the pivot cell holds the mean 2 while the summed sales are 4 - the cell
is not the sum the claim states. -/
theorem C2_pivot_cell_cex :
    sub_category_year [exFeb, exFebPrev] "Chairs" "February" = some 2 ∧
    (([exFeb, exFebPrev].filter fun r =>
        decide (r.subCategory = "Chairs") && decide (monthName r.orderDate.month = "February")).map
          Row.sales).sum = 4 ∧
    sub_category_year [exFeb, exFebPrev] "Chairs" "February" ≠ some 4 := by
  refine ⟨?_, ?_, ?_⟩
  · simp [sub_category_year, exFeb, exFebPrev, mkRow, monthName]
    norm_num
  · simp [exFeb, exFebPrev, mkRow, monthName]
    norm_num
  · simp [sub_category_year, exFeb, exFebPrev, mkRow, monthName]
    norm_num

/-- C3: at a filtered table holding a February 2023 row and an April 2023 row the
monthly time series emits the April point before the February point, because the
series is grouped on the formatted month-year label and ordered alphabetically by
that label, not chronologically by the underlying date. -/
theorem C3_linechart_label_order :
    (linechart [exFeb, exApr]).map Prod.fst = ["2023 : Apr", "2023 : Feb"] ∧
      exFeb.orderDate < exApr.orderDate := by
  constructor
  · decide
  · decide

/-- C4 amended: when the final filtered table is empty, every sum-based KPI, the
profit margin and the customer count are 0, and every aggregate table is empty,
all computed totally (no exception); the average order value alone is not 0 but
undefined - the mean of an empty series is NaN, modelled none. -/
theorem C4_empty_result_degrade (df : List Row) (region state city : List String)
    (h : filtered_df df region state city = []) :
    total_sales (filtered_df df region state city) = 0 ∧
    total_profit (filtered_df df region state city) = 0 ∧
    total_quantity (filtered_df df region state city) = 0 ∧
    profit_margin (filtered_df df region state city) = 0 ∧
    unique_customers (filtered_df df region state city) = 0 ∧
    avg_order_value (filtered_df df region state city) = none ∧
    category_df (filtered_df df region state city) = [] ∧
    segment_df (filtered_df df region state city) = [] ∧
    top_cities (filtered_df df region state city) = [] ∧
    top_products (filtered_df df region state city) = [] ∧
    linechart (filtered_df df region state city) = [] ∧
    region_performance (filtered_df df region state city) = [] ∧
    (∀ s m, sub_category_year (filtered_df df region state city) s m = none) := by
  rw [h]
  refine ⟨rfl, rfl, rfl, ?_, rfl, rfl, rfl, rfl, rfl, rfl, rfl, rfl, fun s m => rfl⟩
  simp [profit_margin, total_sales]

/-- C4 witness: the degradation theorem applied to a selection that empties the
table. -/
theorem C4_empty_result_degrade_witness :
    total_sales (filtered_df ([] : List Row) ["East"] [] []) = 0 ∧
      avg_order_value (filtered_df ([] : List Row) ["East"] [] []) = none := by
  have h := C4_empty_result_degrade ([] : List Row) ["East"] [] [] rfl
  exact ⟨h.1, h.2.2.2.2.2.1⟩

/-- C4 counterexample: on an empty filtered table the average order value KPI is
none (the NaN of the mean of an empty series), not the 0 the claim states. -/
theorem C4_avg_order_value_cex :
    avg_order_value (filtered_df ([] : List Row) [] [] []) = none ∧
      avg_order_value (filtered_df ([] : List Row) [] [] []) ≠ some 0 := by
  refine ⟨rfl, ?_⟩
  intro h
  cases h

/-- C5 amended: the profit margin is 0 whenever total sales is 0 (or not positive),
and equals total profit over total sales times 100 whenever total sales is
positive; it is NOT zero only when total sales is zero, since a zero total profit
with positive sales also gives margin 0. -/
theorem C5_profit_margin_cases (l : List Row) :
    (total_sales l = 0 → profit_margin l = 0) ∧
      (0 < total_sales l → profit_margin l = total_profit l / total_sales l * 100) := by
  constructor
  · intro h
    simp [profit_margin, h]
  · intro h
    simp [profit_margin, h]

/-- C5 witness: the margin case theorem applied to a one-row table with sales 10
and profit 5 yields margin 50. -/
theorem C5_profit_margin_cases_witness : profit_margin [exPosProfit] = 50 := by
  have h := (C5_profit_margin_cases [exPosProfit]).2
    (by norm_num [total_sales, exPosProfit, mkRow])
  rw [h]
  norm_num [total_sales, total_profit, exPosProfit, mkRow]

/-- C5 counterexample: one row with sales 10 and profit 0 - the margin is 0 while
total sales is not 0, refuting the stated if-and-only-if. -/
theorem C5_profit_margin_iff_cex :
    profit_margin [exZeroProfit] = 0 ∧ total_sales [exZeroProfit] ≠ 0 := by
  constructor
  · simp [profit_margin, total_sales, total_profit, exZeroProfit, mkRow]
  · simp [total_sales, exZeroProfit, mkRow]

/-- C6 amended: the top-cities table has min(10, distinct city count) rows and is
sorted in descending order of summed sales; no tie order is asserted, because the
sort_values call (default quicksort) guarantees none - in particular ties do NOT
follow input order, as the counterexample shows. -/
theorem C6_top_cities_shape (l : List Row) :
    (top_cities l).length = min 10 (l.map Row.city).dedup.length ∧
      List.Pairwise salesDesc (top_cities l) :=
  ⟨top_cities_length l, top_cities_sorted l⟩

/-- C6 counterexample: two cities with equal summed sales occur in the input in
the order B, A yet the table lists them A before B, refuting input-order ties.
The groupby sorts the cities alphabetically before the sales sort runs, and on a
two-element array the sort (numpy uses its insertion-sort path there) keeps that
pre-sorted order, so this is the behavior of the source on this input. -/
theorem C6_top_cities_tie_cex :
    [exCityB, exCityA].map Row.city = ["B", "A"] ∧
      (top_cities [exCityB, exCityA]).map Prod.fst = ["A", "B"] ∧
      (["A", "B"] : List String) ≠ ["B", "A"] := by
  refine ⟨rfl, ?_, by decide⟩
  simp [top_cities, groupSum, exCityB, exCityA, mkRow, List.dedup, List.pwFilter,
    strLe, leChars, salesDesc]

/-- C7: the date-range slice keeps exactly the rows whose order date lies between
the bounds, both inclusive; no lower-not-above-upper validation happens, and an
inverted range yields the empty table rather than an error. -/
theorem C7_date_slice_semantics (l : List Row) (d1 d2 : Date) :
    (∀ r, r ∈ dateSlice l d1 d2 ↔ r ∈ l ∧ d1 ≤ r.orderDate ∧ r.orderDate ≤ d2) ∧
      (d2 < d1 → dateSlice l d1 d2 = []) :=
  ⟨fun _ => mem_dateSlice, fun h => dateSlice_eq_nil h⟩

/-- C7 witness: an inverted range empties a concrete one-row table, and an
enclosing range keeps its row. -/
theorem C7_date_slice_semantics_witness :
    dateSlice [exFeb] ⟨2024, 1, 1⟩ ⟨2023, 1, 1⟩ = [] ∧
      exFeb ∈ dateSlice [exFeb] ⟨2023, 1, 1⟩ ⟨2023, 12, 31⟩ := by
  constructor
  · exact (C7_date_slice_semantics [exFeb] ⟨2024, 1, 1⟩ ⟨2023, 1, 1⟩).2 (by decide)
  · exact ((C7_date_slice_semantics [exFeb] ⟨2023, 1, 1⟩ ⟨2023, 12, 31⟩).1 exFeb).mpr
      ⟨List.mem_cons_self _ _, by decide, by decide⟩

/-- C8: the per-category Sales totals of the category table sum to the total-sales
KPI of the same filtered table - group-by-then-sum is additive over the category
partition. -/
theorem C8_category_totals_additive (l : List Row) :
    ((category_df l).map Prod.snd).sum = total_sales l :=
  groupSum_snd_sum l Row.category Row.sales

/-- C9: preprocessing silently drops exactly the rows whose order date fails to
parse: every raw row that parses contributes its converted row, every kept row
stems from a raw row whose date parsed to that very date (so no kept row has a
null date), and the number of kept rows equals the number of parseable raw rows. -/
theorem C9_preprocess_drops_unparseable (l : List RawRow) :
    (∀ raw row, raw ∈ l → raw.toRow = some row → row ∈ preprocess l) ∧
      (∀ row, row ∈ preprocess l → ∃ raw, raw ∈ l ∧ raw.orderDateRaw = some row.orderDate) ∧
      (preprocess l).length = (l.filter fun r => r.orderDateRaw.isSome).length :=
  ⟨fun _ _ hm hp => preprocess_retains hm hp,
   fun _ h => preprocess_sound h,
   preprocess_length l⟩

/-- C9 witness: of a parseable and an unparseable raw row, preprocessing keeps
exactly the converted parseable one. -/
theorem C9_preprocess_drops_unparseable_witness :
    exRowGood ∈ preprocess [exRawGood, exRawBad] ∧
      (preprocess [exRawGood, exRawBad]).length =
        ([exRawGood, exRawBad].filter fun r => r.orderDateRaw.isSome).length := by
  constructor
  · exact (C9_preprocess_drops_unparseable [exRawGood, exRawBad]).1 exRawGood exRowGood
      (List.mem_cons_self _ _) rfl
  · exact (C9_preprocess_drops_unparseable [exRawGood, exRawBad]).2.2

/-- C10: every row of the final filtered table is a row of the date-sliced base
table - no branch of the eight-way construction, including those indexing df3
with masks computed over the base, introduces a row outside the base table or
outside the selected date range. -/
theorem C10_filtered_subset_base (l : List Row) (d1 d2 : Date)
    (region state city : List String) (r : Row)
    (h : r ∈ filtered_df (dateSlice l d1 d2) region state city) :
    r ∈ dateSlice l d1 d2 ∧ r ∈ l ∧ d1 ≤ r.orderDate ∧ r.orderDate ≤ d2 := by
  rw [filtered_df_eq_simplifiedFilter] at h
  have hbase : r ∈ dateSlice l d1 d2 := List.mem_of_mem_filter h
  obtain ⟨h1, h2, h3⟩ := mem_dateSlice.mp hbase
  exact ⟨hbase, h1, h2, h3⟩

/-- C10 witness: the base-membership theorem applied to a concrete row kept by a
region-only selection. -/
theorem C10_filtered_subset_base_witness :
    exFeb ∈ dateSlice [exFeb] ⟨2023, 1, 1⟩ ⟨2023, 12, 31⟩ ∧ exFeb ∈ [exFeb] ∧
      (⟨2023, 1, 1⟩ : Date) ≤ exFeb.orderDate ∧ exFeb.orderDate ≤ ⟨2023, 12, 31⟩ :=
  C10_filtered_subset_base [exFeb] ⟨2023, 1, 1⟩ ⟨2023, 12, 31⟩ ["East"] [] [] exFeb
    (List.mem_cons_self _ _)

end Superstore
